import Mathlib

/-!
Verification of the barcode-scanning service of the mini-pos-pwa repository
(`src/services/barcodeService.js`), as a shallow embedding in Lean 4.

Pure computations (`validateEan13`, the contrast-enhancement transform, the
center-strip extraction) are embedded as Lean functions over exact data;
stateful code (`processResult`, the scan-tick guard, `stopCamera` /
`stopScanning`) is embedded as explicit state passing, with externally
observable effects (callback invocations, track-stop calls) returned as
event lists.  JavaScript exceptions are modelled with `Except` / outcome
inductives; JavaScript `null` is modelled with `Option`.
-/

namespace BarcodeService

/-- Numeric value of a decimal digit character (`parseInt(ean[i])` on a
digit character). -/
def digitVal (c : Char) : Nat := c.toNat - '0'.toNat

/-- The weighted-sum loop of `validateEan13`:
`for (let i = 0; i < 12; i++) sum += parseInt(ean[i]) * (i % 2 === 0 ? 1 : 3)`. -/
def ean13Sum (ds : List Nat) : Nat :=
  (List.range 12).foldl (fun s i => s + ds.getD i 0 * (if i % 2 = 0 then 1 else 3)) 0

/-- Embedding of `BarcodeService.validateEan13` (barcodeService.js:476-492).
The source first rejects any value that is not a string of exactly 13
decimal digits (`ean.length !== 13 || !/^\d+$/.test(ean)`), then compares
`(10 - (sum % 10)) % 10` against the 13th digit. -/
def validateEan13 (ean : String) : Bool :=
  if ean.length = 13 ∧ ean.data.all Char.isDigit then
    let ds := ean.data.map digitVal
    ((10 - ean13Sum ds % 10) % 10) == ds.getD 12 0
  else
    false

/-- Check-digit condition written independently, following the spec words:
the sum of the first 12 digits with alternating weights 1,3,1,3,... -/
def ean13SpecSum (ds : List Nat) : Nat :=
  ∑ i ∈ Finset.range 12, ds.getD i 0 * (if i % 2 = 0 then 1 else 3)

lemma ean13Sum_eq_specSum (ds : List Nat) : ean13Sum ds = ean13SpecSum ds := by
  simp [ean13Sum, ean13SpecSum, List.range_succ, Finset.sum_range_succ]

/-- The ZXing barcode formats registered in `startScanning`
(barcodeService.js:240-251). -/
inductive BarcodeFormat
  | EAN_13 | UPC_A | EAN_8 | UPC_E | CODE_128
  | CODE_39 | CODE_93 | CODABAR | QR_CODE | DATA_MATRIX
  deriving DecidableEq, Repr

/-- The format-name lookup of `processResult` (barcodeService.js:456-457):
`Object.keys(ZXing.BarcodeFormat).find(key => ZXing.BarcodeFormat[key] === result.format)`. -/
def formatName : BarcodeFormat → String
  | .EAN_13 => "EAN_13"
  | .UPC_A => "UPC_A"
  | .EAN_8 => "EAN_8"
  | .UPC_E => "UPC_E"
  | .CODE_128 => "CODE_128"
  | .CODE_39 => "CODE_39"
  | .CODE_93 => "CODE_93"
  | .CODABAR => "CODABAR"
  | .QR_CODE => "QR_CODE"
  | .DATA_MATRIX => "DATA_MATRIX"

/-- A ZXing decode result: its `text` and `format` fields, the only ones
`processResult` reads. -/
structure ScanResult where
  text : String
  format : BarcodeFormat
  deriving DecidableEq, Repr

/-- The mutable scanner state read and written by `processResult`:
`this.lastResult` (a string or `null`) and `this.scanCallback`
(a function or `null`, modelled by presence). -/
structure ScannerState where
  lastResult : Option String
  scanCallback : Option Unit
  deriving DecidableEq, Repr

/-- Embedding of `BarcodeService.processResult` (barcodeService.js:438-469).
The input is the decode outcome (`none` for a JS falsy `result`); the output
is the updated state together with the list of callback invocations
(text, format-name) performed, in order.  Mirrors the source guards:
`if (!result || !result.text) return;` then the EAN-13 check-digit gate,
then the `result.text !== this.lastResult` duplicate suppression, and the
`if (this.scanCallback)` guard before invoking the callback. -/
def processResult (result : Option ScanResult) (s : ScannerState) :
    ScannerState × List (String × String) :=
  match result with
  | none => (s, [])
  | some r =>
    if r.text = "" then (s, [])
    else if (r.format = .EAN_13 ∨ r.text.length = 13) ∧ validateEan13 r.text = false then
      (s, [])
    else if some r.text ≠ s.lastResult then
      ({ s with lastResult := some r.text },
        match s.scanCallback with
        | some _ => [(r.text, formatName r.format)]
        | none => [])
    else (s, [])

/-- A sequence of scan ticks, each yielding a decode outcome handed to
`processResult`; returns the final state and the concatenated callback
invocations. -/
def runTicks (ticks : List (Option ScanResult)) (s : ScannerState) :
    ScannerState × List (String × String) :=
  match ticks with
  | [] => (s, [])
  | t :: rest =>
    let p := processResult t s
    let q := runTicks rest p.1
    (q.1, p.2 ++ q.2)

/-- A result is accepted when the state's `lastResult` becomes its text and
the callback is invoked exactly once with its text and format name. -/
def acceptedOutcome (r : ScanResult) (s : ScannerState) : Prop :=
  (processResult (some r) s).1.lastResult = some r.text ∧
  (processResult (some r) s).2 = [(r.text, formatName r.format)]

/-- Acceptance condition: nonempty text, text different from the current
`lastResult`, and (when the EAN-13 validation applies) a valid check digit. -/
def acceptCondition (r : ScanResult) (s : ScannerState) : Prop :=
  r.text ≠ "" ∧ some r.text ≠ s.lastResult ∧
    ((r.format = .EAN_13 ∨ r.text.length = 13) → validateEan13 r.text = true)

/-- An RGBA pixel of a canvas's image data (one `data[i..i+3]` group). -/
structure Pixel where
  r : Nat
  g : Nat
  b : Nat
  a : Nat
  deriving DecidableEq, Repr

/-- A canvas raster: dimensions plus the pixel grid. -/
structure Canvas where
  width : Nat
  height : Nat
  pix : Nat → Nat → Pixel

/-- Embedding of the per-pixel body of the loop in `enhanceImageForBarcode`
(barcodeService.js:377-396), with the source's IEEE-754 double arithmetic
carried out exactly in `ℚ` (`contrast = 1.5`, `brightness = 0`); double and
exact rational evaluation agree on the threshold comparison for every one
of the 766 possible channel sums, so the rational embedding is faithful. -/
def enhancePixel (p : Pixel) : Pixel :=
  let avg : ℚ := (p.r + p.g + p.b : ℚ) / 3
  let contrast : ℚ := 1.5
  let brightness : ℚ := 0
  let newValue : ℚ := (avg - 128) * contrast + 128 + brightness
  let thresholdValue : Nat := if newValue > 120 then 255 else 0
  ⟨thresholdValue, thresholdValue, thresholdValue, p.a⟩

/-- Embedding of `BarcodeService.enhanceImageForBarcode`
(barcodeService.js:364-401): a new canvas of the same dimensions whose
image data is the source's, transformed pixel by pixel by `enhancePixel`;
the source canvas is copied (`drawImage` + `getImageData`) and never
written. -/
def enhanceImageForBarcode (c : Canvas) : Canvas :=
  ⟨c.width, c.height, fun x y => enhancePixel (c.pix x y)⟩

/-- Embedding of the middle-strip candidate built inside `scanBarcode`
(barcodeService.js:324-340): `stripHeight = Math.floor(height / 5)`,
`stripY = Math.floor(height / 2) - Math.floor(stripHeight / 2)`, and a
same-size `drawImage` copy of the band starting at row `stripY` onto a new
`width × stripHeight` canvas. -/
def middleStripCanvas (c : Canvas) : Canvas :=
  let stripHeight := c.height / 5
  let stripY := c.height / 2 - stripHeight / 2
  ⟨c.width, stripHeight, fun x y => c.pix x (stripY + y)⟩

/-- Tags for the three decode candidates tried by `scanBarcode`, in source
order (barcodeService.js:313-341). -/
inductive ApproachTag where
  | raw | enhanced | strip
  deriving DecidableEq, Repr

/-- The candidate loop of `scanBarcode` (barcodeService.js:343-351): try
each approach in order and stop at the first that yields a result; returns
the first result (with its tag) and the list of approaches attempted, in
order. -/
def tryApproaches {R : Type} (approaches : List (ApproachTag × Option R)) :
    Option (ApproachTag × R) × List ApproachTag :=
  match approaches with
  | [] => (none, [])
  | (t, o) :: rest =>
    match o with
    | some r => (some (t, r), [t])
    | none =>
      let p := tryApproaches rest
      (p.1, t :: p.2)

/-- The `scanApproaches` candidate list of `scanBarcode`
(barcodeService.js:313-341): the raw frame, the contrast-enhanced frame,
and the center strip, in that order. -/
def scanCandidates (frame : Canvas) : List (ApproachTag × Canvas) :=
  [(.raw, frame),
   (.enhanced, enhanceImageForBarcode frame),
   (.strip, middleStripCanvas frame)]

/-- One pass of `scanBarcode`'s candidate loop over a captured frame, with
the decode engine (`performScan` applied through ZXing) abstracted as a
function from canvases to optional results. -/
def scanBarcodePass {R : Type} (decode : Canvas → Option R) (frame : Canvas) :
    Option (ApproachTag × R) × List ApproachTag :=
  tryApproaches ((scanCandidates frame).map fun p => (p.1, decode p.2))

/-- Outcome of one `scanner.decode` call: a result, a thrown
`NotFoundException`, or any other thrown exception. -/
inductive DecodeOutcome (R : Type) where
  | ok (r : R)
  | notFound
  | err
  deriving DecidableEq, Repr

/-- Observable trace of one `performScan` call: what the call returned —
an `Except` value, so that a propagated exception would be visible as
`.error` — and whether each binarizer's decode was attempted. -/
structure PerformScanTrace (R : Type) where
  result : Except Unit (Option R)
  hybridTried : Bool
  globalTried : Bool

/-- Embedding of `BarcodeService.performScan` (barcodeService.js:408-432).
`constructOk` is whether building the luminance source and hybrid bitmap
succeeds (the outer `try`); `hyb` and `glob` are the outcomes
`scanner.decode` produces on the `HybridBinarizer` and
`GlobalHistogramBinarizer` bitmaps.  Every `catch` in the source returns
`null`, embedded as `.ok none`; the global-histogram retry happens only
inside the `error instanceof ZXing.NotFoundException` branch. -/
def performScan {R : Type} (constructOk : Bool) (hyb glob : DecodeOutcome R) :
    PerformScanTrace R :=
  if constructOk then
    match hyb with
    | .ok r => ⟨.ok (some r), true, false⟩
    | .notFound =>
      match glob with
      | .ok r => ⟨.ok (some r), true, true⟩
      | _ => ⟨.ok none, true, true⟩
    | .err => ⟨.ok none, true, false⟩
  else ⟨.ok none, false, false⟩

/-- State visible to the scan-tick guard: the `processingFrame` re-entrancy
flag plus a counter of decode passes actually begun. -/
structure TickState where
  processingFrame : Bool
  passesRun : Nat
  deriving DecidableEq, Repr

/-- Embedding of `scanBarcode`'s outer shell (barcodeService.js:297-357):
set `processingFrame`, run the frame-processing body — which may throw, so
`body` returns the state after its effects together with a thrown flag that
the shell ignores — and in `finally` clear `processingFrame`. -/
def scanBarcodeShell (body : TickState → TickState × Bool) (s : TickState) :
    TickState :=
  let s1 : TickState := ⟨true, s.passesRun + 1⟩
  let p := body s1
  ⟨false, p.1.passesRun⟩

/-- `HTMLMediaElement.HAVE_ENOUGH_DATA`, the `readyState` value the tick
guard requires. -/
def HAVE_ENOUGH_DATA : Nat := 4

/-- Embedding of the interval callback installed by `startScanning`
(barcodeService.js:281-285): run `scanBarcode` only when a video element is
present, its `readyState` equals `HAVE_ENOUGH_DATA`, and `processingFrame`
is not set; otherwise the firing does nothing (skipped, not queued). -/
def timerFire (videoPresent : Bool) (readyState : Nat)
    (body : TickState → TickState × Bool) (s : TickState) : TickState :=
  if videoPresent = true ∧ readyState = HAVE_ENOUGH_DATA ∧
      s.processingFrame = false then
    scanBarcodeShell body s
  else s

/-- Service state touched by `stopCamera` / `stopScanning`: the media
stream (as the list of its tracks, identified by number), the scan-interval
handle, and the stored callback. -/
structure ServiceState where
  stream : Option (List Nat)
  scanInterval : Option Nat
  scanCallback : Option Unit
  deriving DecidableEq, Repr

/-- Service state after a successful `startScanning`
(barcodeService.js:220-291): a live stream with its tracks, an installed
interval, and a stored callback. -/
def afterStart (tracks : List Nat) (timer : Nat) : ServiceState :=
  ⟨some tracks, some timer, some ()⟩

/-- Embedding of `BarcodeService.stopCamera` (barcodeService.js:201-212):
if a stream is held, call `stop()` on each of its tracks (returned as the
ordered list of track-stop calls) and null the stream; if an interval is
set, clear it and null it. -/
def stopCamera (s : ServiceState) : ServiceState × List Nat :=
  let p :=
    match s.stream with
    | some tracks => (({ s with stream := none } : ServiceState), tracks)
    | none => (s, ([] : List Nat))
  match p.1.scanInterval with
  | some _ => ({ p.1 with scanInterval := none }, p.2)
  | none => (p.1, p.2)

/-- Embedding of `BarcodeService.stopScanning` (barcodeService.js:497-500):
`stopCamera()` then `this.scanCallback = null`. -/
def stopScanning (s : ServiceState) : ServiceState × List Nat :=
  let p := stopCamera s
  ({ p.1 with scanCallback := none }, p.2)

/-- A DOM exception as observed by `startCamera`'s catch block: its `name`
and `message`. -/
structure PlatformError where
  name : String
  message : String
  deriving DecidableEq, Repr

/-- Embedding of the catch block of `BarcodeService.startCamera`
(barcodeService.js:185-195): the message of the `Error` re-thrown to the
caller for each stream-acquisition failure. -/
def startCameraErrorMessage (e : PlatformError) : String :=
  if e.name = "NotAllowedError" then
    "Camera access denied. Please grant camera permission."
  else if e.name = "NotFoundError" then
    "No camera found on this device."
  else
    "Camera error: " ++ e.message

/-- The three error kinds of a stream-acquisition failure. -/
inductive CameraErrorKind where
  | permissionDenied | noDeviceFound | hardwareError
  deriving DecidableEq, Repr

/-- Caller-side classification of a thrown camera error by its message;
the mapping theorem shows the three kinds are distinguishable. -/
def cameraErrorKind (msg : String) : CameraErrorKind :=
  if msg = "Camera access denied. Please grant camera permission." then
    .permissionDenied
  else if msg = "No camera found on this device." then
    .noDeviceFound
  else
    .hardwareError

end BarcodeService

open BarcodeService

/-- C1: for every string `s`, `validateEan13 s` is true iff `s` consists of
exactly 13 ASCII digits and its 13th digit equals the EAN-13 check digit
`(10 - (sum mod 10)) mod 10` computed from the first 12 digits with
alternating weights 1,3,1,3,...; moreover `validateEan13 "4006381333931"`
is true while `"4006381333930"`, `"12345"` and `"400638133393A"` are all
rejected. -/
theorem C1_validateEan13_correct :
    (∀ s : String,
      validateEan13 s = true ↔
        (s.data.length = 13 ∧ (∀ c ∈ s.data, c.isDigit) ∧
          (10 - ean13SpecSum (s.data.map digitVal) % 10) % 10
            = (s.data.map digitVal).getD 12 0)) ∧
    validateEan13 "4006381333931" = true ∧
    validateEan13 "4006381333930" = false ∧
    validateEan13 "12345" = false ∧
    validateEan13 "400638133393A" = false := by
  refine ⟨fun s => ?_, by decide, by decide, by decide, by decide⟩
  have hlen_eq : s.length = s.data.length := rfl
  unfold validateEan13
  split
  · rename_i h
    obtain ⟨hlen, hdig⟩ := h
    rw [List.all_eq_true] at hdig
    simp only [beq_iff_eq, ean13Sum_eq_specSum]
    exact ⟨fun hck => ⟨hlen_eq.symm.trans hlen, hdig, hck⟩, fun ⟨_, _, hck⟩ => hck⟩
  · rename_i h
    refine iff_of_false (by simp) ?_
    rintro ⟨hlen, hdig, _⟩
    exact h ⟨hlen_eq.trans hlen, List.all_eq_true.mpr hdig⟩

/-- C2 counterexample: the claimed acceptance condition fails for a decode
result with empty text.  With `lastResult = null` and a `CODE_128` result
whose text is `""`, the text differs from `lastResult` and the EAN-13
validation does not apply, so the claim says the result is accepted; but
the source's `if (!result || !result.text) return;` guard rejects it with
no state change and no callback invocation. -/
theorem C2_accept_iff_counterexample :
    ¬ (((processResult (some ⟨"", .CODE_128⟩) ⟨none, some ()⟩).1.lastResult = some "" ∧
        (processResult (some ⟨"", .CODE_128⟩) ⟨none, some ()⟩).2
          = [("", formatName .CODE_128)]) ↔
      (some "" ≠ (⟨none, some ()⟩ : ScannerState).lastResult ∧
        ((BarcodeFormat.CODE_128 = .EAN_13 ∨ ("" : String).length = 13) →
          validateEan13 "" = true))) := by
  decide

/-- C2 (amended): in a session with a registered callback, a decode result
is accepted — `lastResult` updated and the callback invoked exactly once
with its text — iff its text is nonempty, differs from the current
`lastResult`, and (when the EAN-13 validation applies) passes
`validateEan13`; a rejected result causes no state change and no callback
invocation; and over the tick sequence yielding no result,
`"4006381333931"`, `"4006381333931"`, the callback fires exactly once,
with `"4006381333931"`. -/
theorem C2_accept_semantics (r : ScanResult) (s : ScannerState)
    (hcb : s.scanCallback = some ()) :
    (acceptedOutcome r s ↔ acceptCondition r s) ∧
    (¬ acceptedOutcome r s → processResult (some r) s = (s, [])) ∧
    runTicks [none, some ⟨"4006381333931", .EAN_13⟩, some ⟨"4006381333931", .EAN_13⟩]
        ⟨none, some ()⟩
      = (⟨some "4006381333931", some ()⟩, [("4006381333931", "EAN_13")]) := by
  obtain ⟨last, cb⟩ := s
  have hcb' : cb = some () := hcb
  subst hcb'
  refine ⟨?_, ?_, by decide⟩
  · unfold acceptedOutcome acceptCondition
    simp only [processResult]
    split_ifs with h1 h2 h3
    · simp [h1]
    · refine iff_of_false (by simp) ?_
      rintro ⟨-, -, himp⟩
      exact absurd (himp h2.1) (by simp [h2.2])
    · have himp : (r.format = .EAN_13 ∨ r.text.length = 13) →
          validateEan13 r.text = true := by
        intro ha
        rcases Bool.eq_false_or_eq_true (validateEan13 r.text) with ht | hf
        · exact ht
        · exact absurd ⟨ha, hf⟩ h2
      exact iff_of_true ⟨rfl, rfl⟩ ⟨h1, h3, himp⟩
    · refine iff_of_false (by simp) ?_
      rintro ⟨-, hne, -⟩
      exact absurd (not_not.mp h3) hne
  · unfold acceptedOutcome
    simp only [processResult]
    split_ifs with h1 h2 h3
    · exact fun _ => rfl
    · exact fun _ => rfl
    · exact fun hna => absurd ⟨rfl, rfl⟩ hna
    · exact fun _ => rfl

/-- Witness for C2: the amended acceptance semantics instantiated at a
valid EAN-13 result arriving in a fresh session with a registered
callback. -/
theorem C2_accept_semantics_witness :
    (⟨none, some ()⟩ : ScannerState).scanCallback = some () ∧
    ((acceptedOutcome ⟨"4006381333931", .EAN_13⟩ ⟨none, some ()⟩ ↔
        acceptCondition ⟨"4006381333931", .EAN_13⟩ ⟨none, some ()⟩) ∧
      (¬ acceptedOutcome ⟨"4006381333931", .EAN_13⟩ ⟨none, some ()⟩ →
        processResult (some ⟨"4006381333931", .EAN_13⟩) ⟨none, some ()⟩
          = (⟨none, some ()⟩, [])) ∧
      runTicks [none, some ⟨"4006381333931", .EAN_13⟩, some ⟨"4006381333931", .EAN_13⟩]
          ⟨none, some ()⟩
        = (⟨some "4006381333931", some ()⟩, [("4006381333931", "EAN_13")])) :=
  ⟨rfl, C2_accept_semantics ⟨"4006381333931", .EAN_13⟩ ⟨none, some ()⟩ rfl⟩

/-- C10: every decode result whose text has exactly 13 characters is gated
by the EAN-13 check-digit validation regardless of its reported format, so
a 13-character text containing a non-digit character is silently discarded:
no state change and no callback invocation. -/
theorem C10_thirteen_char_gate (r : ScanResult) (s : ScannerState)
    (hlen : r.text.length = 13) (hnd : ∃ c ∈ r.text.data, ¬ c.isDigit) :
    processResult (some r) s = (s, []) := by
  have hcond : ¬(r.text.length = 13 ∧ r.text.data.all Char.isDigit = true) := by
    rintro ⟨-, hall⟩
    rw [List.all_eq_true] at hall
    obtain ⟨c, hc, hcd⟩ := hnd
    exact hcd (hall c hc)
  have hval : validateEan13 r.text = false := by
    unfold validateEan13
    rw [if_neg hcond]
  by_cases h0 : r.text = ""
  · simp [processResult, h0]
  · simp only [processResult]
    rw [if_neg h0, if_pos ⟨Or.inr hlen, hval⟩]

/-- Witness for C10: a 13-character alphanumeric Code-128 result is
discarded without state change or callback invocation. -/
theorem C10_thirteen_char_gate_witness :
    ("ABCDEFGHIJKLM" : String).length = 13 ∧
    (∃ c ∈ ("ABCDEFGHIJKLM" : String).data, ¬ c.isDigit) ∧
    processResult (some ⟨"ABCDEFGHIJKLM", .CODE_128⟩) ⟨none, some ()⟩
      = (⟨none, some ()⟩, []) :=
  ⟨by decide, by decide,
    C10_thirteen_char_gate ⟨"ABCDEFGHIJKLM", .CODE_128⟩ ⟨none, some ()⟩
      (by decide) (by decide)⟩

/-- C3: `scanBarcode` tries the decode candidates in the fixed order raw
frame, contrast-enhanced frame, center strip, stopping at the first
success: when the raw candidate fails and the enhanced candidate decodes,
the raw candidate was attempted first and failed, the enhanced result is
returned, and the center strip is never attempted. -/
theorem C3_decode_order {R : Type} (decode : Canvas → Option R)
    (frame : Canvas) (r : R)
    (hraw : decode frame = none)
    (henh : decode (enhanceImageForBarcode frame) = some r) :
    scanBarcodePass decode frame
      = (some (.enhanced, r), [.raw, .enhanced]) := by
  simp [scanBarcodePass, scanCandidates, tryApproaches, hraw, henh]

/-- Evaluation of the enhancement at a mid-gray pixel: the scaled value
`(100 − 128) · 1.5 + 128 = 86` is below the 120 cutoff, so the pixel goes
black. -/
lemma enhancePixel_gray100 : enhancePixel ⟨100, 100, 100, 255⟩ = ⟨0, 0, 0, 255⟩ := by
  unfold enhancePixel
  norm_num

/-- Witness for C3: on a 1×1 mid-gray frame, a decode engine that only
reads black pixels fails on the raw frame, succeeds on the enhanced frame,
and the pass returns the enhanced result having attempted exactly raw then
enhanced. -/
theorem C3_decode_order_witness :
    (fun c : Canvas => if (c.pix 0 0).r = 0 then some 7 else none)
        (⟨1, 1, fun _ _ => ⟨100, 100, 100, 255⟩⟩ : Canvas) = none ∧
    (fun c : Canvas => if (c.pix 0 0).r = 0 then some 7 else none)
        (enhanceImageForBarcode ⟨1, 1, fun _ _ => ⟨100, 100, 100, 255⟩⟩) = some 7 ∧
    scanBarcodePass (fun c : Canvas => if (c.pix 0 0).r = 0 then some 7 else none)
        ⟨1, 1, fun _ _ => ⟨100, 100, 100, 255⟩⟩
      = (some (.enhanced, 7), [.raw, .enhanced]) :=
  ⟨by simp, by simp [enhanceImageForBarcode, enhancePixel_gray100],
   C3_decode_order (fun c : Canvas => if (c.pix 0 0).r = 0 then some 7 else none)
     ⟨1, 1, fun _ _ => ⟨100, 100, 100, 255⟩⟩ 7
     (by simp) (by simp [enhanceImageForBarcode, enhancePixel_gray100])⟩

/-- C4: `performScan` attempts the locally-adaptive (hybrid) binarizer
first; it retries — exactly once — with the global-histogram binarizer iff
the hybrid attempt failed with `NotFoundException`; and it never
propagates an exception to its caller: every failure path yields the null
(not-found) outcome. -/
theorem C4_performScan_fallback {R : Type} (constructOk : Bool)
    (hyb glob : DecodeOutcome R) :
    ((performScan constructOk hyb glob).globalTried = true ↔
      ((performScan constructOk hyb glob).hybridTried = true ∧
        hyb = DecodeOutcome.notFound)) ∧
    (performScan constructOk hyb glob).result ≠ Except.error () ∧
    ((performScan constructOk hyb glob).result = Except.ok none ∨
      ∃ r, (performScan constructOk hyb glob).result = Except.ok (some r) ∧
        (hyb = DecodeOutcome.ok r ∨
          (hyb = DecodeOutcome.notFound ∧ glob = DecodeOutcome.ok r))) := by
  rcases constructOk <;> rcases hyb with r | - | - <;> rcases glob with r2 | - | - <;>
    simp [performScan]

/-- C5: a timer firing while `processingFrame` is set performs no work and
changes nothing (skipped, not queued); a firing is likewise a no-op when
no video element is present or its `readyState` is not
`HAVE_ENOUGH_DATA`; and after every completed `scanBarcode` tick —
whatever its body did, including throwing — the `finally` block has
cleared `processingFrame`, so future ticks can run. -/
theorem C5_tick_reentrancy (videoPresent : Bool) (readyState : Nat)
    (body : TickState → TickState × Bool) (s : TickState) :
    (s.processingFrame = true → timerFire videoPresent readyState body s = s) ∧
    (videoPresent = false → timerFire videoPresent readyState body s = s) ∧
    (readyState ≠ HAVE_ENOUGH_DATA → timerFire videoPresent readyState body s = s) ∧
    (scanBarcodeShell body s).processingFrame = false := by
  refine ⟨?_, ?_, ?_, rfl⟩
  · intro h
    simp [timerFire, h]
  · intro h
    simp [timerFire, h]
  · intro h
    simp [timerFire, h]

/-- Witness for C5: concrete skipped firings (busy flag set; video not
present; `readyState` 0) and a completed tick with its flag cleared. -/
theorem C5_tick_reentrancy_witness :
    ((⟨true, 0⟩ : TickState).processingFrame = true ∧
      timerFire true 4 (fun t => (t, true)) ⟨true, 0⟩ = ⟨true, 0⟩) ∧
    ((false : Bool) = false ∧
      timerFire false 4 (fun t => (t, true)) ⟨false, 0⟩ = ⟨false, 0⟩) ∧
    ((0 : Nat) ≠ HAVE_ENOUGH_DATA ∧
      timerFire true 0 (fun t => (t, true)) ⟨false, 0⟩ = ⟨false, 0⟩) ∧
    (scanBarcodeShell (fun t => (t, true)) ⟨false, 0⟩).processingFrame = false :=
  ⟨⟨rfl, (C5_tick_reentrancy true 4 (fun t => (t, true)) ⟨true, 0⟩).1 rfl⟩,
   ⟨rfl, (C5_tick_reentrancy false 4 (fun t => (t, true)) ⟨false, 0⟩).2.1 rfl⟩,
   ⟨by decide, (C5_tick_reentrancy true 0 (fun t => (t, true)) ⟨false, 0⟩).2.2.1
      (by decide)⟩,
   (C5_tick_reentrancy true 0 (fun t => (t, true)) ⟨false, 0⟩).2.2.2⟩

/-- C6: the contrast enhancement returns a raster of identical dimensions
in which every pixel's R, G and B channels are 255 when
`((avg − 128) · 1.5 + 128) > 120` — with `avg` the mean of the input
pixel's R, G and B channels — and 0 otherwise, the alpha channel
unchanged; the embedding is a pure function, so the transform is
deterministic and its input raster is never mutated. -/
theorem C6_enhance_pointwise (c : Canvas) (x y : Nat) :
    (enhanceImageForBarcode c).width = c.width ∧
    (enhanceImageForBarcode c).height = c.height ∧
    (((enhanceImageForBarcode c).pix x y).r
        = if (((c.pix x y).r + (c.pix x y).g + (c.pix x y).b : ℚ) / 3 - 128)
              * 1.5 + 128 > 120
            then 255 else 0) ∧
    ((enhanceImageForBarcode c).pix x y).g = ((enhanceImageForBarcode c).pix x y).r ∧
    ((enhanceImageForBarcode c).pix x y).b = ((enhanceImageForBarcode c).pix x y).r ∧
    ((enhanceImageForBarcode c).pix x y).a = (c.pix x y).a := by
  refine ⟨rfl, rfl, ?_, rfl, rfl, rfl⟩
  simp [enhanceImageForBarcode, enhancePixel]

/-- C7: the center-strip candidate keeps the frame's full width, has
height `floor(height / 5)` (0.2 of the frame height, floored), and its
content is the horizontal band of the frame starting at row
`floor(height / 2) − floor(stripHeight / 2)`. -/
theorem C7_centerStrip_band (c : Canvas) (x y : Nat) (_hy : y < c.height / 5) :
    (middleStripCanvas c).width = c.width ∧
    (middleStripCanvas c).height = c.height / 5 ∧
    (middleStripCanvas c).pix x y
      = c.pix x (c.height / 2 - (c.height / 5) / 2 + y) :=
  ⟨rfl, rfl, rfl⟩

/-- Witness for C7: a 4×10 frame yields a 4×2 strip whose row 0 is the
frame's row 4. -/
theorem C7_centerStrip_band_witness :
    (0 : Nat) < (⟨4, 10, fun _ _ => ⟨1, 2, 3, 4⟩⟩ : Canvas).height / 5 ∧
    ((middleStripCanvas ⟨4, 10, fun _ _ => ⟨1, 2, 3, 4⟩⟩).width = 4 ∧
      (middleStripCanvas ⟨4, 10, fun _ _ => ⟨1, 2, 3, 4⟩⟩).height = 10 / 5 ∧
      (middleStripCanvas ⟨4, 10, fun _ _ => ⟨1, 2, 3, 4⟩⟩).pix 0 0
        = (⟨4, 10, fun _ _ => ⟨1, 2, 3, 4⟩⟩ : Canvas).pix 0 (10 / 2 - (10 / 5) / 2 + 0)) :=
  ⟨by decide,
   C7_centerStrip_band ⟨4, 10, fun _ _ => ⟨1, 2, 3, 4⟩⟩ 0 0 (by decide)⟩

/-- C8: after a successful start, the first `stopScanning` invokes `stop`
on each camera track exactly once (the emitted track-stop calls are
exactly the stream's tracks, in order), cancels the periodic tick and
clears the stream, timer and callback; from the cleared state every
further `stopScanning` is a no-op emitting no track-stop calls, and — the
embedding being a total function — never throws. -/
theorem C8_stop_idempotent (tracks : List Nat) (timer : Nat) :
    stopScanning (afterStart tracks timer)
      = ((⟨none, none, none⟩ : ServiceState), tracks) ∧
    stopScanning ⟨none, none, none⟩
      = ((⟨none, none, none⟩ : ServiceState), []) :=
  ⟨rfl, rfl⟩

/-- The generic camera-error message can never collide with the
permission-denied message: its first 14 characters are the fixed prefix
`"Camera error: "`. -/
lemma cameraError_generic_ne_denied (m : String) :
    "Camera error: " ++ m ≠ "Camera access denied. Please grant camera permission." := by
  intro h
  have h2 : ("Camera error: " ++ m).data
      = "Camera access denied. Please grant camera permission.".data := by rw [h]
  rw [String.data_append] at h2
  have h3 := congrArg (List.take 14) h2
  rw [List.take_left' (by decide)] at h3
  exact absurd h3 (by decide)

/-- The generic camera-error message can never collide with the
no-device-found message. -/
lemma cameraError_generic_ne_nodevice (m : String) :
    "Camera error: " ++ m ≠ "No camera found on this device." := by
  intro h
  have h2 : ("Camera error: " ++ m).data
      = "No camera found on this device.".data := by rw [h]
  rw [String.data_append] at h2
  have h3 := congrArg (List.take 14) h2
  rw [List.take_left' (by decide)] at h3
  exact absurd h3 (by decide)

/-- C9: a failed stream acquisition surfaces one of three distinguishable
error kinds: a platform `NotAllowedError` maps to the permission-denied
kind, a platform `NotFoundError` maps to the no-device-found kind, and
every other failure maps to the generic hardware-error kind; the three
kinds are pairwise distinct. -/
theorem C9_error_mapping (e : PlatformError) :
    (e.name = "NotAllowedError" →
      startCameraErrorMessage e
          = "Camera access denied. Please grant camera permission." ∧
      cameraErrorKind (startCameraErrorMessage e) = .permissionDenied) ∧
    (e.name = "NotFoundError" →
      startCameraErrorMessage e = "No camera found on this device." ∧
      cameraErrorKind (startCameraErrorMessage e) = .noDeviceFound) ∧
    (e.name ≠ "NotAllowedError" → e.name ≠ "NotFoundError" →
      startCameraErrorMessage e = "Camera error: " ++ e.message ∧
      cameraErrorKind (startCameraErrorMessage e) = .hardwareError) ∧
    (CameraErrorKind.permissionDenied ≠ .noDeviceFound ∧
      CameraErrorKind.permissionDenied ≠ .hardwareError ∧
      CameraErrorKind.noDeviceFound ≠ .hardwareError) := by
  refine ⟨?_, ?_, ?_, by decide, by decide, by decide⟩
  · intro h
    constructor
    · simp [startCameraErrorMessage, h]
    · simp [startCameraErrorMessage, cameraErrorKind, h]
  · intro h
    have hne : e.name ≠ "NotAllowedError" := by rw [h]; decide
    constructor
    · simp [startCameraErrorMessage, h, hne]
    · simp [startCameraErrorMessage, cameraErrorKind, h, hne]
  · intro h1 h2
    have hmsg : startCameraErrorMessage e = "Camera error: " ++ e.message := by
      simp [startCameraErrorMessage, h1, h2]
    refine ⟨hmsg, ?_⟩
    rw [hmsg]
    unfold cameraErrorKind
    rw [if_neg (cameraError_generic_ne_denied e.message),
      if_neg (cameraError_generic_ne_nodevice e.message)]

/-- Witness for C9: the three mappings evaluated at concrete platform
errors (`NotAllowedError`, `NotFoundError`, `AbortError`). -/
theorem C9_error_mapping_witness :
    ((⟨"NotAllowedError", "m1"⟩ : PlatformError).name = "NotAllowedError" ∧
      cameraErrorKind (startCameraErrorMessage ⟨"NotAllowedError", "m1"⟩)
        = .permissionDenied) ∧
    ((⟨"NotFoundError", "m2"⟩ : PlatformError).name = "NotFoundError" ∧
      cameraErrorKind (startCameraErrorMessage ⟨"NotFoundError", "m2"⟩)
        = .noDeviceFound) ∧
    ((⟨"AbortError", "m3"⟩ : PlatformError).name ≠ "NotAllowedError" ∧
      (⟨"AbortError", "m3"⟩ : PlatformError).name ≠ "NotFoundError" ∧
      cameraErrorKind (startCameraErrorMessage ⟨"AbortError", "m3"⟩)
        = .hardwareError) :=
  ⟨⟨rfl, ((C9_error_mapping ⟨"NotAllowedError", "m1"⟩).1 rfl).2⟩,
   ⟨rfl, ((C9_error_mapping ⟨"NotFoundError", "m2"⟩).2.1 rfl).2⟩,
   ⟨by decide, by decide,
     ((C9_error_mapping ⟨"AbortError", "m3"⟩).2.2.1 (by decide) (by decide)).2⟩⟩
